import Mathlib

/-!
# Verification of the nusarithm IAM backend authentication core

Shallow embedding of the Go services in `internal/application/services`
(`auth_service.go`, `user_service.go`, `role_service.go`), the repository
layer (`role_repository.go`, and the user/domain repositories), and the
HTTP auth handler (`role_handler.go`), together with theorems settling the
specification's claims about login, token validation, profile assembly,
role-claims normalization and pagination.

Conventions of the embedding:
* `uuid.UUID` values are opaque identifiers compared only for equality;
  they are modelled as `Nat`.
* Unix time is modelled as `Nat` seconds.
* Go `error` values are modelled by `Except String`, carrying the error
  message produced by `fmt.Errorf`; `database/sql`'s no-row failure is the
  string of `sql.ErrNoRows`.
* A Go `map[string]interface{}` field that may be `nil` is modelled as an
  `Option` of an association list with opaque values.
-/

/-- Opaque identifier (google/uuid UUID), compared only for equality. -/
abbrev UUID := Nat

/-- Message of `database/sql.ErrNoRows`, returned by `QueryRow(...).Scan`
when a lookup matches no row. -/
def sqlNoRows : String := "sql: no rows in result set"

/-- Opaque role-claim values (`interface{}` in Go, uninterpreted by the core). -/
abbrev ClaimValue := String

/-- A `map[string]interface{}` value that is known non-nil. -/
abbrev RoleClaimsMap := List (String × ClaimValue)

/-- `entities.User` (src/unnamed/part_001). Timestamps are omitted: no
authentication-flow code reads them. -/
structure User where
  id : UUID
  domainID : UUID
  roleID : UUID
  firstName : String
  lastName : String
  username : String
  email : String
  passwordHash : String
deriving DecidableEq, Repr

/-- `entities.Role` (src/unnamed/part_000). `roleClaims` is `none` when the
Go map is nil. Timestamps omitted (never read by the modelled code). -/
structure Role where
  id : UUID
  domainID : UUID
  roleName : String
  roleClaims : Option RoleClaimsMap
deriving DecidableEq, Repr

/-- `entities.Domain` (src/unnamed/part_001): tenant id, display name, and
the tenant-key string stored in the `domain` column. -/
structure Domain where
  domainID : UUID
  name : String
  domain : String
deriving DecidableEq, Repr

/-- The persistent store seen by the repositories: the `users`, `roles` and
`domains` tables, each a list of rows in query order. -/
structure Directory where
  users : List User
  roles : List Role
  domains : List Domain
deriving Repr

/-- `userRepository.GetByUsername` (src/unnamed/part_003):
`SELECT ... FROM users WHERE username = $1` via `QueryRow.Scan`; a miss
yields `sql.ErrNoRows`. -/
def userGetByUsername (dir : Directory) (username : String) : Except String User :=
  match dir.users.find? (fun u => u.username == username) with
  | some u => .ok u
  | none => .error sqlNoRows

/-- `userRepository.GetByID` (src/unnamed/part_003). -/
def userGetByID (dir : Directory) (id : UUID) : Except String User :=
  match dir.users.find? (fun u => u.id == id) with
  | some u => .ok u
  | none => .error sqlNoRows

/-- `roleRepository.GetByID` (role_repository.go lines 38-56). -/
def roleGetByID (dir : Directory) (id : UUID) : Except String Role :=
  match dir.roles.find? (fun r => r.id == id) with
  | some r => .ok r
  | none => .error sqlNoRows

/-- `domainRepository.GetByID` (src/unnamed/part_003 lines 37-44). -/
def domainGetByID (dir : Directory) (id : UUID) : Except String Domain :=
  match dir.domains.find? (fun d => d.domainID == id) with
  | some d => .ok d
  | none => .error sqlNoRows

/-- Modelled from the spec: the Credential Hasher (spec §4.1). The source
calls `crypto/sha256` (Go standard library, not under src/) and hex-encodes
the digest (`fmt.Sprintf("%x", sha256.Sum256([]byte(p)))`). The spec's
contract treats the digest as deterministic and collision-free, so the
digest is modelled as an injective tagging of the plaintext. -/
def sha256Hex (p : String) : String := "sha256hex:" ++ p

/-- `userService.hashPassword` (user_service.go lines 110-113). -/
def hashPassword (password : String) : String := sha256Hex password

/-- `userService.VerifyPassword` (user_service.go lines 115-117):
`s.hashPassword(password) == hashedPassword`. -/
def VerifyPassword (hashedPassword password : String) : Bool :=
  hashPassword password == hashedPassword

/-- `authService.verifyPassword` (auth_service.go lines 157-160): recomputes
the sha256 hex digest of `password` and compares it to the stored hash. -/
def authVerifyPassword (hashedPassword password : String) : Bool :=
  sha256Hex password == hashedPassword

/-- JWT signing algorithms relevant to the embedding: the HMAC family that
`jwt.SigningMethodHMAC` covers, a representative asymmetric method, and the
unsigned "none" method. -/
inductive Alg
  | HS256
  | HS384
  | HS512
  | RS256
  | algNone
deriving DecidableEq, Repr

/-- Which methods are `*jwt.SigningMethodHMAC` (the type the keyfunc in
`ValidateToken` accepts). -/
def Alg.isHMAC : Alg → Bool
  | .HS256 => true
  | .HS384 => true
  | .HS512 => true
  | .RS256 => false
  | .algNone => false

/-- Header name of an algorithm (the `alg` header value). -/
def Alg.name : Alg → String
  | .HS256 => "HS256"
  | .HS384 => "HS384"
  | .HS512 => "HS512"
  | .RS256 => "RS256"
  | .algNone => "none"

/-- `services.TokenClaims` (auth_service.go lines 49-55): the custom claims
plus the registered claims set by `generateToken`. -/
structure TokenClaims where
  userID : UUID
  domainID : UUID
  username : String
  roleID : UUID
  expiresAt : Nat
  issuedAt : Nat
  notBefore : Nat
  issuer : String
  subject : String
deriving DecidableEq, Repr

/-- Modelled from the spec: a MAC over the signing input (spec §4.2, the
Token Codec signs with a symmetric secret). Modelled symbolically as a
perfect MAC: the signature determines, and is determined by, the algorithm,
the signed claims and the key. -/
structure Sig where
  alg : Alg
  payload : TokenClaims
  key : String
deriving DecidableEq, Repr

/-- Modelled from the spec: a compact serialized JWT (spec §4.2, "a
self-contained string"). The base64 wire encoding is bijective, so a token
string is modelled by its decoded content: header algorithm, claims, and
signature (`none` for unsigned tokens such as alg="none" tokens). -/
structure Token where
  alg : Alg
  claims : TokenClaims
  sig : Option Sig
deriving DecidableEq, Repr

/-- The `authService` receiver state (auth_service.go lines 57-63): the
repositories are passed separately as the `Directory`; the signing secret
and token lifetime are carried here. -/
structure AuthState where
  jwtSecret : String
  tokenExpiry : Nat
deriving Repr

/-- `NewAuthService` (auth_service.go lines 65-73) fixes the token lifetime
at 24 hours. -/
def NewAuthService (jwtSecret : String) : AuthState :=
  { jwtSecret := jwtSecret, tokenExpiry := 24 * 60 * 60 }

/-- `services.UserProfile` with its nested `RoleProfile` and `DomainProfile`
(auth_service.go lines 26-47). -/
structure RoleProfile where
  id : UUID
  name : String
  description : String
  claims : Option RoleClaimsMap
deriving DecidableEq, Repr

structure DomainProfile where
  id : UUID
  name : String
  description : String
deriving DecidableEq, Repr

structure UserProfile where
  id : UUID
  username : String
  email : String
  firstName : String
  lastName : String
  role : RoleProfile
  domain : DomainProfile
deriving DecidableEq, Repr

/-- `services.LoginResponse` (auth_service.go lines 21-24). -/
structure LoginResponse where
  accessToken : Token
  user : UserProfile
deriving DecidableEq, Repr

/-- `authService.generateToken` (auth_service.go lines 138-155): builds the
claims from the user row at issuance time `now`, with expiry
`now + tokenExpiry`, and signs with HS256 under the server secret. The
model's signing never fails (`SignedString` with an HMAC method and a byte
key fails only on marshalling, which cannot happen for these claims). -/
def generateToken (s : AuthState) (user : User) (now : Nat) : Token :=
  let claims : TokenClaims :=
    { userID := user.id
      domainID := user.domainID
      username := user.username
      roleID := user.roleID
      expiresAt := now + s.tokenExpiry
      issuedAt := now
      notBefore := now
      issuer := "nusarithm-iam"
      subject := toString user.id }
  { alg := .HS256, claims := claims, sig := some ⟨.HS256, claims, s.jwtSecret⟩ }

/-- Modelled from the spec and the golang-jwt/jwt/v5 library (not under
src/): `jwt.ParseWithClaims` with the keyfunc of `ValidateToken`
(auth_service.go lines 111-116). The keyfunc rejects any method that is not
`*jwt.SigningMethodHMAC`; otherwise the signature is checked against the
server secret under the token's own header algorithm, and then the temporal
claims are validated: per spec §4.2 the current time must lie within
[not-before, expires-at]. Each failure carries the library's distinct
sentinel message. -/
def jwtParseWithClaims (secret : String) (t : Token) (now : Nat) : Except String TokenClaims :=
  if ¬ t.alg.isHMAC then
    .error ("token is unverifiable: error while executing keyfunc: unexpected signing method: "
      ++ t.alg.name)
  else if t.sig ≠ some ⟨t.alg, t.claims, secret⟩ then
    .error "token signature is invalid: signature is invalid"
  else if now < t.claims.notBefore then
    .error "token has invalid claims: token is not valid yet"
  else if t.claims.expiresAt < now then
    .error "token has invalid claims: token is expired"
  else
    .ok t.claims

/-- `authService.ValidateToken` (auth_service.go lines 110-127): parse and
verify; any parse/verification failure is wrapped as
`fmt.Errorf("invalid token: %w", err)`; on success the decoded claims are
returned. -/
def ValidateToken (s : AuthState) (t : Token) (now : Nat) : Except String TokenClaims :=
  match jwtParseWithClaims s.jwtSecret t now with
  | .error e => .error ("invalid token: " ++ e)
  | .ok claims => .ok claims

/-- `authService.buildUserProfile` (auth_service.go lines 162-193): fetch
the user's role and domain and merge them into the profile; a missing role
or domain is wrapped as `failed to get role/domain: %w`. The role profile's
description is the literal `""` and the domain profile's description is the
domain row's `domain` (tenant-key) column. -/
def buildUserProfile (dir : Directory) (user : User) : Except String UserProfile :=
  match roleGetByID dir user.roleID with
  | .error e => .error ("failed to get role: " ++ e)
  | .ok role =>
    match domainGetByID dir user.domainID with
    | .error e => .error ("failed to get domain: " ++ e)
    | .ok dom =>
      .ok
        { id := user.id
          username := user.username
          email := user.email
          firstName := user.firstName
          lastName := user.lastName
          role :=
            { id := role.id
              name := role.roleName
              description := ""
              claims := role.roleClaims }
          domain :=
            { id := dom.domainID
              name := dom.name
              description := dom.domain } }

/-- `authService.Login` (auth_service.go lines 75-108): look the user up by
username, check tenant membership, verify the password, issue a token and
assemble the profile. All three credential checks fail with the same
`fmt.Errorf("invalid credentials")` value. -/
def Login (s : AuthState) (dir : Directory) (domainID : UUID)
    (username password : String) (now : Nat) : Except String LoginResponse :=
  match userGetByUsername dir username with
  | .error _ => .error "invalid credentials"
  | .ok user =>
    if user.domainID ≠ domainID then
      .error "invalid credentials"
    else if ¬ authVerifyPassword user.passwordHash password then
      .error "invalid credentials"
    else
      let token := generateToken s user now
      match buildUserProfile dir user with
      | .error e => .error ("failed to build user profile: " ++ e)
      | .ok profile => .ok { accessToken := token, user := profile }

/-- `authService.GetProfile` (auth_service.go lines 129-136): re-fetch the
user row by id (the token claims are not consulted) and assemble the
profile from current storage. -/
def GetProfile (dir : Directory) (userID : UUID) : Except String UserProfile :=
  match userGetByID dir userID with
  | .error _ => .error "user not found"
  | .ok user => buildUserProfile dir user

/-- The HTTP response of the token-validation endpoint
(role_handler.go `AuthHandler.ValidateToken`): either a 401 with an error
message or a 200 carrying the decoded claims. -/
inductive ValidateResponse
  | unauthorized (msg : String)
  | okResp (claims : TokenClaims)
deriving DecidableEq, Repr

/-- The Authorization header of a validate request. The opaque base64 token
encoding is abstracted away: a header that survives
`strings.TrimPrefix(h, "Bearer ")` with a change carries a decoded token. -/
inductive HeaderInput
  | missing
  | noBearer (raw : String)
  | bearer (t : Token)
deriving Repr

/-- `AuthHandler.ValidateToken` (role_handler.go lines 352-375): a missing
header and a header without the `Bearer ` marker fail before validation;
every `authService.ValidateToken` failure is surfaced as the one message
`Invalid or expired token`; success returns the claims. -/
def handlerValidateToken (s : AuthState) (h : HeaderInput) (now : Nat) : ValidateResponse :=
  match h with
  | .missing => .unauthorized "Authorization header is required"
  | .noBearer _ => .unauthorized "Invalid authorization header format"
  | .bearer t =>
    match ValidateToken s t now with
    | .error _ => .unauthorized "Invalid or expired token"
    | .ok claims => .okResp claims

/-- `roleService.CreateRole` (role_service.go lines 35-50): the role object
handed to `repo.Create`. A nil claims map is replaced by a fresh empty map;
the id is assigned later by the repository. -/
def createRoleObj (domainID : UUID) (roleName : String)
    (roleClaims : Option RoleClaimsMap) : Role :=
  let rc : Option RoleClaimsMap :=
    match roleClaims with
    | none => some []
    | some m => some m
  { id := 0, domainID := domainID, roleName := roleName, roleClaims := rc }

/-- `roleService.UpdateRole` (role_service.go lines 52-67): the role object
handed to `repo.Update`, with the same nil-map normalization. -/
def updateRoleObj (id : UUID) (roleName : String)
    (roleClaims : Option RoleClaimsMap) : Role :=
  let rc : Option RoleClaimsMap :=
    match roleClaims with
    | none => some []
    | some m => some m
  { id := id, domainID := 0, roleName := roleName, roleClaims := rc }

/-- Modelled from the spec: SQL `ILIKE '%pat%'` (PostgreSQL, not under
src/), i.e. case-insensitive substring containment, on the character
lists of the two strings. -/
def charsStartWith : List Char → List Char → Bool
  | _, [] => true
  | [], _ :: _ => false
  | c :: cs, p :: ps => c == p && charsStartWith cs ps

def charsContain (hay pat : List Char) : Bool :=
  if charsStartWith hay pat then true
  else
    match hay with
    | [] => false
    | _ :: rest => charsContain rest pat

def ilike (field pat : String) : Bool :=
  charsContain field.toLower.toList pat.toLower.toList

/-- `repositories.DomainListResult` (src/unnamed/part_003 lines 21-27). -/
structure DomainListResult where
  domains : List Domain
  total : Int
  page : Int
  limit : Int
  totalPages : Int
deriving DecidableEq, Repr

/-- `repositories.UserListResult` (src/unnamed/part_003 lines 157-163). -/
structure UserListResult where
  users : List User
  total : Int
  page : Int
  limit : Int
  totalPages : Int
deriving DecidableEq, Repr

/-- `repositories.RoleListResult` (role_repository.go lines 22-28). -/
structure RoleListResult where
  roles : List Role
  total : Int
  page : Int
  limit : Int
  totalPages : Int
deriving DecidableEq, Repr

/-- The row set the domain list query ranges over: the search filter
`name ILIKE $1 OR domain ILIKE $1` is applied only when `search` is
nonempty (src/unnamed/part_003 lines 82-85). -/
def domainSearchMatches (table : List Domain) (search : String) : List Domain :=
  if search == "" then table
  else table.filter (fun d => ilike d.name search || ilike d.domain search)

/-- `domainRepository.ListWithPagination` (src/unnamed/part_003 lines
71-123): offset `(page-1)*limit`; `total` is the `COUNT(*)` of the filtered
table; the returned rows model `LIMIT limit OFFSET offset` over the
filtered table in query order; `totalPages = (total + limit - 1) / limit`
in Go (truncating) integer division. -/
def domainListWithPagination (table : List Domain) (search : String)
    (page limit : Int) : DomainListResult :=
  let offset := (page - 1) * limit
  let matching := domainSearchMatches table search
  let total : Int := matching.length
  let rows := (matching.drop offset.toNat).take limit.toNat
  let totalPages := Int.tdiv (total + limit - 1) limit
  { domains := rows, total := total, page := page, limit := limit,
    totalPages := totalPages }

/-- `userRepository.ListWithPagination` (src/unnamed/part_003 lines
263-320): always filtered to `domain_id = $1`; a nonempty search also
matches username, email, first or last name; same pagination arithmetic. -/
def userSearchMatches (table : List User) (search : String)
    (domainID : UUID) : List User :=
  let inDomain := table.filter (fun u => u.domainID == domainID)
  if search == "" then inDomain
  else inDomain.filter (fun u =>
    ilike u.username search || ilike u.email search
      || ilike u.firstName search || ilike u.lastName search)

def userListWithPagination (table : List User) (search : String)
    (domainID : UUID) (page limit : Int) : UserListResult :=
  let offset := (page - 1) * limit
  let matching := userSearchMatches table search domainID
  let total : Int := matching.length
  let rows := (matching.drop offset.toNat).take limit.toNat
  let totalPages := Int.tdiv (total + limit - 1) limit
  { users := rows, total := total, page := page, limit := limit,
    totalPages := totalPages }

/-- `roleRepository.ListWithPagination` (role_repository.go lines 121-183):
filtered to `domain_id = $1`, nonempty search matches `role_name`; same
pagination arithmetic. -/
def roleSearchMatches (table : List Role) (search : String)
    (domainID : UUID) : List Role :=
  let inDomain := table.filter (fun r => r.domainID == domainID)
  if search == "" then inDomain
  else inDomain.filter (fun r => ilike r.roleName search)

def roleListWithPagination (table : List Role) (search : String)
    (domainID : UUID) (page limit : Int) : RoleListResult :=
  let offset := (page - 1) * limit
  let matching := roleSearchMatches table search domainID
  let total : Int := matching.length
  let rows := (matching.drop offset.toNat).take limit.toNat
  let totalPages := Int.tdiv (total + limit - 1) limit
  { roles := rows, total := total, page := page, limit := limit,
    totalPages := totalPages }

/-- `domainService.ListDomainsWithPagination` (the domain service bundled
with user_service.go in the sources): normalize `page` and `limit`, then
delegate to the repository. -/
def ListDomainsWithPagination (table : List Domain) (search : String)
    (page limit : Int) : DomainListResult :=
  let page := if page ≤ 0 then 1 else page
  let limit := if limit ≤ 0 || limit > 100 then 10 else limit
  domainListWithPagination table search page limit

/-- `userService.ListUsersWithPagination` (user_service.go lines 98-108). -/
def ListUsersWithPagination (table : List User) (search : String)
    (domainID : UUID) (page limit : Int) : UserListResult :=
  let page := if page ≤ 0 then 1 else page
  let limit := if limit ≤ 0 || limit > 100 then 10 else limit
  userListWithPagination table search domainID page limit

/-- `roleService.ListRolesWithPagination` (role_service.go lines 73-83). -/
def ListRolesWithPagination (table : List Role) (search : String)
    (domainID : UUID) (page limit : Int) : RoleListResult :=
  let page := if page ≤ 0 then 1 else page
  let limit := if limit ≤ 0 || limit > 100 then 10 else limit
  roleListWithPagination table search domainID page limit

/-! ## Concrete fixtures used by witnesses -/

def wUser : User :=
  { id := 10, domainID := 1, roleID := 20, firstName := "Alice",
    lastName := "Smith", username := "alice", email := "alice@acme.io",
    passwordHash := hashPassword "pw" }

def wRole : Role :=
  { id := 20, domainID := 1, roleName := "admin", roleClaims := some [] }

def wDomain : Domain := { domainID := 1, name := "Acme", domain := "acme" }

def wDir : Directory :=
  { users := [wUser], roles := [wRole], domains := [wDomain] }

def wAuth : AuthState := NewAuthService "secret"

/-! ## Claims -/

theorem sha256Hex_injective {p q : String} (h : sha256Hex p = sha256Hex q) :
    p = q := by
  have hd : ("sha256hex:" ++ p).data = ("sha256hex:" ++ q).data :=
    congrArg String.data h
  rw [String.data_append, String.data_append] at hd
  have hpq : p.data = q.data := List.append_cancel_left hd
  cases p
  cases q
  exact congrArg String.mk (by simpa using hpq)

/-- C5: the credential hasher is a pure deterministic function; both
services' verify functions agree and return true exactly when the
recomputed digest equals the stored one; the correct password always
verifies and any different password never does. -/
theorem password_hash_verify_contract :
    (∀ d p : String, VerifyPassword d p = (hashPassword p == d)) ∧
    (∀ d p : String, authVerifyPassword d p = VerifyPassword d p) ∧
    (∀ p : String, VerifyPassword (hashPassword p) p = true) ∧
    (∀ p p2 : String, p ≠ p2 → VerifyPassword (hashPassword p) p2 = false) := by
  refine ⟨fun d p => rfl, fun d p => rfl, fun p => by simp [VerifyPassword],
    fun p p2 hne => ?_⟩
  simp only [VerifyPassword, hashPassword, beq_eq_false_iff_ne, ne_eq]
  intro h
  exact hne (sha256Hex_injective h).symm

theorem password_hash_verify_contract_witness :
    ("alpha" : String) ≠ "beta" ∧
      VerifyPassword (hashPassword "alpha") "beta" = false :=
  ⟨by decide, password_hash_verify_contract.2.2.2 "alpha" "beta" (by decide)⟩

/-- C9: the role objects CreateRole and UpdateRole hand to the repository
always carry a non-nil claims map: a nil argument map becomes the empty
map, and a provided map is kept. -/
theorem role_claims_never_nil (domainID id : UUID) (roleName : String)
    (rc : Option RoleClaimsMap) :
    (createRoleObj domainID roleName rc).roleClaims = some (rc.getD []) ∧
    (updateRoleObj id roleName rc).roleClaims = some (rc.getD []) ∧
    ((createRoleObj domainID roleName rc).roleClaims).isSome = true ∧
    ((updateRoleObj id roleName rc).roleClaims).isSome = true := by
  cases rc <;> simp [createRoleObj, updateRoleObj]

/-- C3: tenant isolation — when the user found by username belongs to a
domain other than the requested one, Login fails with the
invalid-credentials error, whatever the password. -/
theorem login_tenant_isolation (s : AuthState) (dir : Directory)
    (domainID : UUID) (username password : String) (now : Nat) (user : User)
    (hfind : userGetByUsername dir username = .ok user)
    (hdom : user.domainID ≠ domainID) :
    Login s dir domainID username password now = .error "invalid credentials" := by
  simp [Login, hfind, hdom]

theorem login_tenant_isolation_witness :
    userGetByUsername wDir "alice" = .ok wUser ∧ wUser.domainID ≠ 2 ∧
      Login wAuth wDir 2 "alice" "pw" 0 = .error "invalid credentials" :=
  ⟨rfl, by decide,
    login_tenant_isolation wAuth wDir 2 "alice" "pw" 0 wUser rfl (by decide)⟩

/-- The disjunction of Login's three credential-check failure conditions
(auth_service.go lines 77-90): username not found, domain mismatch, or
password digest mismatch. -/
def credCheckFails (dir : Directory) (domainID : UUID)
    (username password : String) : Bool :=
  match dir.users.find? (fun u => u.username == username) with
  | none => true
  | some user =>
    user.domainID != domainID || !authVerifyPassword user.passwordHash password

/-- C4: all three credential failure modes produce the identical
invalid-credentials error, so two failing runs are indistinguishable from
the Login result alone. -/
theorem login_failure_indistinguishable (s : AuthState)
    (dir1 dir2 : Directory) (d1 d2 : UUID) (u1 p1 u2 p2 : String)
    (n1 n2 : Nat)
    (h1 : credCheckFails dir1 d1 u1 p1 = true)
    (h2 : credCheckFails dir2 d2 u2 p2 = true) :
    Login s dir1 d1 u1 p1 n1 = .error "invalid credentials" ∧
    Login s dir1 d1 u1 p1 n1 = Login s dir2 d2 u2 p2 n2 := by
  have key : ∀ (dir : Directory) (d : UUID) (u p : String) (n : Nat),
      credCheckFails dir d u p = true →
      Login s dir d u p n = .error "invalid credentials" := by
    intro dir d u p n h
    unfold credCheckFails at h
    unfold Login userGetByUsername
    cases hf : dir.users.find? (fun x => x.username == u) with
    | none => simp
    | some user =>
      rw [hf] at h
      simp only [Bool.or_eq_true, bne_iff_ne, ne_eq, Bool.not_eq_true'] at h
      rcases h with h | h
      · simp [h]
      · by_cases hd : user.domainID = d
        · simp [hd, h]
        · simp [hd]
  exact ⟨key dir1 d1 u1 p1 n1 h1, by rw [key dir1 d1 u1 p1 n1 h1, key dir2 d2 u2 p2 n2 h2]⟩

theorem login_failure_indistinguishable_witness :
    credCheckFails wDir 1 "mallory" "pw" = true ∧
    credCheckFails wDir 1 "alice" "wrong" = true ∧
    (Login wAuth wDir 1 "mallory" "pw" 0 = .error "invalid credentials" ∧
     Login wAuth wDir 1 "mallory" "pw" 0 = Login wAuth wDir 1 "alice" "wrong" 5) :=
  ⟨by decide, by decide,
    login_failure_indistinguishable wAuth wDir wDir 1 1 "mallory" "pw"
      "alice" "wrong" 0 5 (by decide) (by decide)⟩

/-- C2 (amended): a token is accepted by ValidateToken exactly when its
header algorithm is in the HMAC family, its signature verifies against the
server's secret under that algorithm, and the current time lies within
[not-before, expires-at]. Hence "none"/non-HMAC algorithms and wrong-secret
signatures are rejected regardless of claim contents — but any HMAC-family
algorithm is accepted, not only the HS256 used at issuance. -/
theorem validateToken_characterization (s : AuthState) (t : Token) (now : Nat) :
    (∀ c, ValidateToken s t now = .ok c → c = t.claims) ∧
    (ValidateToken s t now = .ok t.claims ↔
      (t.alg.isHMAC = true ∧ t.sig = some ⟨t.alg, t.claims, s.jwtSecret⟩ ∧
        t.claims.notBefore ≤ now ∧ now ≤ t.claims.expiresAt)) := by
  unfold ValidateToken jwtParseWithClaims
  split_ifs with h1 h2 h3 h4 <;> simp_all

def wClaims : TokenClaims :=
  { userID := 10, domainID := 1, username := "alice", roleID := 20,
    expiresAt := 2000, issuedAt := 0, notBefore := 0,
    issuer := "nusarithm-iam", subject := "10" }

def wTokenHS512 : Token :=
  { alg := .HS512, claims := wClaims, sig := some ⟨.HS512, wClaims, "secret"⟩ }

/-- C2 counterexample: a token whose header asserts HS512 — an algorithm
different from the HS256 the server signs with — but which is signed with
the server's own secret is accepted by ValidateToken instead of being
rejected: the keyfunc only checks membership in the HMAC family. -/
theorem validateToken_accepts_different_hmac_alg :
    wTokenHS512.alg ≠ Alg.HS256 ∧
      ValidateToken wAuth wTokenHS512 100 = .ok wClaims :=
  ⟨by decide, rfl⟩

/-- C1: a stored user whose password hash is the digest of `password`, in a
directory whose role and domain references resolve, logs in successfully
against their own domain; the issued token is accepted by ValidateToken at
any instant of its validity window and its decoded claims carry the user's
id, domain id, username and role id. -/
theorem login_issues_valid_token (s : AuthState) (dir : Directory)
    (user : User) (password : String) (now t : Nat)
    (hfind : userGetByUsername dir user.username = .ok user)
    (hhash : user.passwordHash = hashPassword password)
    (hrole : ∃ r, roleGetByID dir user.roleID = .ok r)
    (hdom : ∃ dm, domainGetByID dir user.domainID = .ok dm)
    (hlo : now ≤ t) (hhi : t ≤ now + s.tokenExpiry) :
    ∃ resp, Login s dir user.domainID user.username password now = .ok resp ∧
      ValidateToken s resp.accessToken t = .ok resp.accessToken.claims ∧
      resp.accessToken.claims.userID = user.id ∧
      resp.accessToken.claims.domainID = user.domainID ∧
      resp.accessToken.claims.username = user.username ∧
      resp.accessToken.claims.roleID = user.roleID := by
  obtain ⟨r, hr⟩ := hrole
  obtain ⟨dm, hdm⟩ := hdom
  have hverify : authVerifyPassword user.passwordHash password = true := by
    simp [authVerifyPassword, hhash, hashPassword]
  refine ⟨⟨generateToken s user now,
    { id := user.id, username := user.username, email := user.email,
      firstName := user.firstName, lastName := user.lastName,
      role := { id := r.id, name := r.roleName, description := "",
                claims := r.roleClaims },
      domain := { id := dm.domainID, name := dm.name,
                  description := dm.domain } }⟩, ?_, ?_, rfl, rfl, rfl, rfl⟩
  · simp [Login, hfind, hverify, buildUserProfile, hr, hdm]
  · unfold ValidateToken jwtParseWithClaims generateToken
    simp [Alg.isHMAC]
    rw [if_neg (by omega), if_neg (by omega)]

theorem login_issues_valid_token_witness :
    userGetByUsername wDir "alice" = .ok wUser ∧
    wUser.passwordHash = hashPassword "pw" ∧
    roleGetByID wDir wUser.roleID = .ok wRole ∧
    domainGetByID wDir wUser.domainID = .ok wDomain ∧
    (∃ resp, Login wAuth wDir wUser.domainID wUser.username "pw" 0 = .ok resp ∧
      ValidateToken wAuth resp.accessToken 0 = .ok resp.accessToken.claims ∧
      resp.accessToken.claims.userID = wUser.id ∧
      resp.accessToken.claims.domainID = wUser.domainID ∧
      resp.accessToken.claims.username = wUser.username ∧
      resp.accessToken.claims.roleID = wUser.roleID) :=
  ⟨rfl, rfl, rfl, rfl,
    login_issues_valid_token wAuth wDir wUser "pw" 0 0 rfl rfl ⟨wRole, rfl⟩
      ⟨wDomain, rfl⟩ (by decide) (by decide)⟩

def wTokenExpired : Token :=
  { alg := .HS256,
    claims := { wClaims with expiresAt := 50 },
    sig := some ⟨.HS256, { wClaims with expiresAt := 50 }, "secret"⟩ }

def wTokenForged : Token :=
  { alg := .HS256, claims := wClaims, sig := some ⟨.HS256, wClaims, "wrong-secret"⟩ }

/-- C6 counterexample: at the service layer the error values for an expired
token and a forged token differ — the `fmt.Errorf("invalid token: %w", err)`
wrap preserves the distinct underlying causes. -/
theorem validateToken_errors_distinguishable :
    ValidateToken wAuth wTokenExpired 100 =
      .error "invalid token: token has invalid claims: token is expired" ∧
    ValidateToken wAuth wTokenForged 100 =
      .error "invalid token: token signature is invalid: signature is invalid" ∧
    ValidateToken wAuth wTokenExpired 100 ≠ ValidateToken wAuth wTokenForged 100 :=
  ⟨rfl, rfl, fun h => by
    have h2 : ("invalid token: token has invalid claims: token is expired" : String) =
        "invalid token: token signature is invalid: signature is invalid" := by
      injection h
    exact absurd h2 (by decide)⟩

/-- C6 (amended): every service-layer validation failure is an error
prefixed `invalid token: ` that wraps its cause, so expired and forged
tokens are distinguishable there; the HTTP handler however surfaces the
identical `Invalid or expired token` response for every failing token, so
at the handler boundary the two causes are indistinguishable. -/
theorem validate_failures_opaque_at_handler (s : AuthState)
    (t1 t2 : Token) (n1 n2 : Nat) (e1 e2 : String)
    (h1 : ValidateToken s t1 n1 = .error e1)
    (h2 : ValidateToken s t2 n2 = .error e2) :
    (∃ c1, e1 = "invalid token: " ++ c1) ∧
    handlerValidateToken s (.bearer t1) n1 =
      .unauthorized "Invalid or expired token" ∧
    handlerValidateToken s (.bearer t1) n1 =
      handlerValidateToken s (.bearer t2) n2 := by
  refine ⟨?_, ?_, ?_⟩
  · unfold ValidateToken at h1
    revert h1
    cases hp : jwtParseWithClaims s.jwtSecret t1 n1 with
    | error e => intro h1; exact ⟨e, by simpa using h1.symm⟩
    | ok c => intro h1; simp at h1
  · simp [handlerValidateToken, h1]
  · simp [handlerValidateToken, h1, h2]

theorem validate_failures_opaque_at_handler_witness :
    ValidateToken wAuth wTokenExpired 100 =
      .error "invalid token: token has invalid claims: token is expired" ∧
    ValidateToken wAuth wTokenForged 100 =
      .error "invalid token: token signature is invalid: signature is invalid" ∧
    ((∃ c1, "invalid token: token has invalid claims: token is expired" =
        "invalid token: " ++ c1) ∧
      handlerValidateToken wAuth (.bearer wTokenExpired) 100 =
        .unauthorized "Invalid or expired token" ∧
      handlerValidateToken wAuth (.bearer wTokenExpired) 100 =
        handlerValidateToken wAuth (.bearer wTokenForged) 100) :=
  ⟨rfl, rfl,
    validate_failures_opaque_at_handler wAuth wTokenExpired wTokenForged
      100 100 _ _ rfl rfl⟩

/-- C7: GetProfile assembles the profile from the rows currently in
storage: a missing user yields the `user not found` error, a missing role
or domain yields a wrapped dependency error, and on success every profile
field is taken from the freshly fetched user, role and domain rows. -/
theorem getProfile_refetches_and_reports (dir : Directory) (uid : UUID) :
    (userGetByID dir uid = .error sqlNoRows →
      GetProfile dir uid = .error "user not found") ∧
    (∀ user, userGetByID dir uid = .ok user →
      (roleGetByID dir user.roleID = .error sqlNoRows →
        GetProfile dir uid = .error ("failed to get role: " ++ sqlNoRows)) ∧
      (∀ role, roleGetByID dir user.roleID = .ok role →
        (domainGetByID dir user.domainID = .error sqlNoRows →
          GetProfile dir uid = .error ("failed to get domain: " ++ sqlNoRows)) ∧
        (∀ dom, domainGetByID dir user.domainID = .ok dom →
          GetProfile dir uid = .ok
            { id := user.id, username := user.username, email := user.email,
              firstName := user.firstName, lastName := user.lastName,
              role := { id := role.id, name := role.roleName,
                        description := "", claims := role.roleClaims },
              domain := { id := dom.domainID, name := dom.name,
                          description := dom.domain } }))) := by
  refine ⟨fun hu => by simp [GetProfile, hu], fun user hu => ⟨fun hr => ?_, fun role hr => ⟨fun hd => ?_, fun dom hd => ?_⟩⟩⟩
  · simp [GetProfile, hu, buildUserProfile, hr]
  · simp [GetProfile, hu, buildUserProfile, hr, hd]
  · simp [GetProfile, hu, buildUserProfile, hr, hd]

theorem getProfile_refetches_and_reports_witness :
    userGetByID wDir 999 = .error sqlNoRows ∧
    GetProfile wDir 999 = .error "user not found" :=
  ⟨rfl, (getProfile_refetches_and_reports wDir 999).1 rfl⟩

/-- Helper for C10: any successfully built profile carries an empty role
description and the looked-up domain row's tenant-key column as the domain
description; the domain can be re-fetched at the profile's own domain id. -/
theorem buildUserProfile_descriptions (dir : Directory) (user : User)
    (prof : UserProfile) (h : buildUserProfile dir user = .ok prof) :
    prof.role.description = "" ∧
    ∃ dm, domainGetByID dir prof.domain.id = .ok dm ∧
      prof.domain.description = dm.domain := by
  unfold buildUserProfile at h
  revert h
  cases hr : roleGetByID dir user.roleID with
  | error e => intro h; simp at h
  | ok role =>
    cases hd : domainGetByID dir user.domainID with
    | error e => intro h; simp at h
    | ok dm =>
      intro h
      simp only [Except.ok.injEq] at h
      subst h
      refine ⟨rfl, dm, ?_, rfl⟩
      unfold domainGetByID at hd ⊢
      revert hd
      cases hf : dir.domains.find? (fun d => d.domainID == user.domainID) with
      | none => intro hd; simp at hd
      | some d0 =>
        intro hd
        simp only [Except.ok.injEq] at hd
        subst hd
        have hpred := List.find?_some hf
        simp only [beq_iff_eq] at hpred
        simp [hpred, hf]

/-- C10: every profile produced by a successful Login or GetProfile has an
empty role description, and its domain description equals the `domain`
(tenant-key) column of the stored domain row it was assembled from. -/
theorem profile_description_fields (s : AuthState) (dir : Directory)
    (domainID uid : UUID) (username password : String) (now : Nat) :
    (∀ resp, Login s dir domainID username password now = .ok resp →
      resp.user.role.description = "" ∧
      ∃ dm, domainGetByID dir resp.user.domain.id = .ok dm ∧
        resp.user.domain.description = dm.domain) ∧
    (∀ prof, GetProfile dir uid = .ok prof →
      prof.role.description = "" ∧
      ∃ dm, domainGetByID dir prof.domain.id = .ok dm ∧
        prof.domain.description = dm.domain) := by
  constructor
  · intro resp hlogin
    unfold Login at hlogin
    revert hlogin
    cases hf : userGetByUsername dir username with
    | error e => intro hlogin; simp at hlogin
    | ok user =>
      intro hlogin
      by_cases hd : user.domainID ≠ domainID
      · simp [hd] at hlogin
      · simp only [hd, if_false, ite_not] at hlogin
        by_cases hv : authVerifyPassword user.passwordHash password
        · revert hlogin
          simp only [hv, if_true]
          cases hb : buildUserProfile dir user with
          | error e => intro hlogin; simp at hlogin
          | ok prof =>
            intro hlogin
            simp only [Except.ok.injEq] at hlogin
            have hu : resp.user = prof := by rw [← hlogin]
            rw [hu]
            exact buildUserProfile_descriptions dir user prof hb
        · simp [hv] at hlogin
  · intro prof hget
    unfold GetProfile at hget
    revert hget
    cases hf : userGetByID dir uid with
    | error e => intro hget; simp at hget
    | ok user => exact buildUserProfile_descriptions dir user prof

def wProfileAssembled : UserProfile :=
  { id := 10, username := "alice", email := "alice@acme.io",
    firstName := "Alice", lastName := "Smith",
    role := { id := 20, name := "admin", description := "", claims := some [] },
    domain := { id := 1, name := "Acme", description := "acme" } }

theorem profile_description_fields_witness :
    GetProfile wDir 10 = .ok wProfileAssembled ∧
    (wProfileAssembled.role.description = "" ∧
      ∃ dm, domainGetByID wDir wProfileAssembled.domain.id = .ok dm ∧
        wProfileAssembled.domain.description = dm.domain) :=
  ⟨rfl,
    (profile_description_fields wAuth wDir 1 10 "alice" "pw" 0).2
      wProfileAssembled rfl⟩

theorem ceil_bounds_nat (a b : Nat) (hb : 0 < b) :
    a ≤ b * ((a + b - 1) / b) ∧ b * ((a + b - 1) / b) < a + b := by
  have h1 := Nat.div_add_mod (a + b - 1) b
  have h2 := Nat.mod_lt (a + b - 1) hb
  have key : ∀ x r : Nat, x + r = a + b - 1 → r < b → a ≤ x ∧ x < a + b := by
    intro x r h hr
    omega
  exact key _ _ h1 h2

/-- `(x + L - 1) tdiv L` is the ceiling of `x / L`: the smallest page count
covering all `x` rows. -/
theorem tdiv_ceil_bounds (x : Nat) (L : Int) (hL : 1 ≤ L) :
    (x : Int) ≤ L * Int.tdiv ((x : Int) + L - 1) L ∧
      L * Int.tdiv ((x : Int) + L - 1) L < (x : Int) + L := by
  lift L to Nat using (by omega) with l
  have hl : 0 < l := by exact_mod_cast hL
  have hnum : (x : Int) + (l : Int) - 1 = ((x + l - 1 : Nat) : Int) := by omega
  rw [hnum]
  have htd : Int.tdiv ((x + l - 1 : Nat) : Int) (l : Int) =
      (((x + l - 1) / l : Nat) : Int) := rfl
  rw [htd]
  obtain ⟨hb1, hb2⟩ := ceil_bounds_nat x l hl
  constructor
  · exact_mod_cast hb1
  · exact_mod_cast hb2

/-- C8: all three paginated list services normalize `page ≤ 0` to 1 and
`limit ≤ 0 ∨ limit > 100` to 10, echo the normalized values in the result,
page the filtered rows at offset `(page-1)·limit`, report the filtered row
count as `total`, and compute `totalPages = (total + limit - 1) / limit` in
truncating integer division — which is the ceiling of `total / limit`. -/
theorem pagination_contract (dTable : List Domain) (uTable : List User)
    (rTable : List Role) (search : String) (domainID : UUID)
    (page limit : Int) :
    ∃ pN lN : Int,
      pN = (if page ≤ 0 then 1 else page) ∧
      lN = (if limit ≤ 0 || limit > 100 then 10 else limit) ∧
      1 ≤ pN ∧ 1 ≤ lN ∧ lN ≤ 100 ∧
      ((ListDomainsWithPagination dTable search page limit).page = pN ∧
        (ListDomainsWithPagination dTable search page limit).limit = lN ∧
        (ListDomainsWithPagination dTable search page limit).total =
          (domainSearchMatches dTable search).length ∧
        (ListDomainsWithPagination dTable search page limit).domains =
          ((domainSearchMatches dTable search).drop ((pN - 1) * lN).toNat).take
            lN.toNat ∧
        (ListDomainsWithPagination dTable search page limit).totalPages =
          Int.tdiv
            ((ListDomainsWithPagination dTable search page limit).total + lN - 1)
            lN ∧
        (ListDomainsWithPagination dTable search page limit).total ≤
          lN * (ListDomainsWithPagination dTable search page limit).totalPages ∧
        lN * (ListDomainsWithPagination dTable search page limit).totalPages <
          (ListDomainsWithPagination dTable search page limit).total + lN) ∧
      ((ListUsersWithPagination uTable search domainID page limit).page = pN ∧
        (ListUsersWithPagination uTable search domainID page limit).limit = lN ∧
        (ListUsersWithPagination uTable search domainID page limit).total =
          (userSearchMatches uTable search domainID).length ∧
        (ListUsersWithPagination uTable search domainID page limit).users =
          ((userSearchMatches uTable search domainID).drop
            ((pN - 1) * lN).toNat).take lN.toNat ∧
        (ListUsersWithPagination uTable search domainID page limit).totalPages =
          Int.tdiv
            ((ListUsersWithPagination uTable search domainID page limit).total
              + lN - 1) lN ∧
        (ListUsersWithPagination uTable search domainID page limit).total ≤
          lN * (ListUsersWithPagination uTable search domainID page limit).totalPages ∧
        lN * (ListUsersWithPagination uTable search domainID page limit).totalPages <
          (ListUsersWithPagination uTable search domainID page limit).total + lN) ∧
      ((ListRolesWithPagination rTable search domainID page limit).page = pN ∧
        (ListRolesWithPagination rTable search domainID page limit).limit = lN ∧
        (ListRolesWithPagination rTable search domainID page limit).total =
          (roleSearchMatches rTable search domainID).length ∧
        (ListRolesWithPagination rTable search domainID page limit).roles =
          ((roleSearchMatches rTable search domainID).drop
            ((pN - 1) * lN).toNat).take lN.toNat ∧
        (ListRolesWithPagination rTable search domainID page limit).totalPages =
          Int.tdiv
            ((ListRolesWithPagination rTable search domainID page limit).total
              + lN - 1) lN ∧
        (ListRolesWithPagination rTable search domainID page limit).total ≤
          lN * (ListRolesWithPagination rTable search domainID page limit).totalPages ∧
        lN * (ListRolesWithPagination rTable search domainID page limit).totalPages <
          (ListRolesWithPagination rTable search domainID page limit).total + lN) := by
  have hl : (1 : Int) ≤ (if limit ≤ 0 || limit > 100 then 10 else limit) := by
    split_ifs with h
    · omega
    · simp only [Bool.or_eq_true, decide_eq_true_eq, not_or] at h
      omega
  refine ⟨if page ≤ 0 then 1 else page,
    if limit ≤ 0 || limit > 100 then 10 else limit, rfl, rfl, ?_, hl, ?_,
    ⟨rfl, rfl, rfl, rfl, rfl, ?_, ?_⟩, ⟨rfl, rfl, rfl, rfl, rfl, ?_, ?_⟩,
    ⟨rfl, rfl, rfl, rfl, rfl, ?_, ?_⟩⟩
  · split_ifs with h <;> omega
  · split_ifs with h
    · omega
    · simp only [Bool.or_eq_true, decide_eq_true_eq, not_or] at h
      omega
  · exact (tdiv_ceil_bounds (domainSearchMatches dTable search).length _ hl).1
  · exact (tdiv_ceil_bounds (domainSearchMatches dTable search).length _ hl).2
  · exact (tdiv_ceil_bounds (userSearchMatches uTable search domainID).length _ hl).1
  · exact (tdiv_ceil_bounds (userSearchMatches uTable search domainID).length _ hl).2
  · exact (tdiv_ceil_bounds (roleSearchMatches rTable search domainID).length _ hl).1
  · exact (tdiv_ceil_bounds (roleSearchMatches rTable search domainID).length _ hl).2

theorem validateToken_characterization_witness :
    ValidateToken wAuth wTokenHS512 100 = .ok wClaims ∧
    wClaims = wTokenHS512.claims ∧
    (wTokenHS512.alg.isHMAC = true ∧
      wTokenHS512.sig = some ⟨wTokenHS512.alg, wTokenHS512.claims, wAuth.jwtSecret⟩ ∧
      wTokenHS512.claims.notBefore ≤ 100 ∧
      100 ≤ wTokenHS512.claims.expiresAt) :=
  ⟨rfl, (validateToken_characterization wAuth wTokenHS512 100).1 wClaims rfl,
    (validateToken_characterization wAuth wTokenHS512 100).2.mp rfl⟩
